import Mathlib

/-!
Shallow embedding of the ODoH client session (`src/odoh.rs`) of
odoh-client-rs, together with theorems settling the specification claims.

The session logic in `odoh.rs` is pure protocol orchestration over a set of
collaborators: the `url` crate (URL parsing), the `odoh_rs` crate (the ODoH
crypto: config selection, query encryption, response decryption), the
`reqwest` HTTP client (transport), and the repository's `dns_utils` module
(DNS query construction / answer parsing; its file is not present under
`src/`, only its call sites are).  Collaborator behaviour is modelled as an
environment of oracle functions (`Env`); the session functions are
translated line by line from `odoh.rs` on top of that environment.  Network
effects (config discovery GET, query POST) are recorded in an event trace so
that "happens once" / "never happens" claims are statable.
-/

namespace ODoH

/-- Model of a parsed `url::Url` as used by `odoh.rs`: a host (absent for
    host-less URLs such as `data:` URLs), a path, and an opaque remainder
    (scheme, port, ...) that keeps distinct URLs distinct. -/
structure Url where
  host : Option String
  path : String
  meta : String
deriving DecidableEq

/-- Model of `url::Url::set_path`. -/
def Url.set_path (u : Url) (p : String) : Url :=
  { u with path := p }

/-- Model of `url::Url::host_str`. -/
def Url.host_str (u : Url) : Option String :=
  u.host

/-- The constant `QUERY_PATH` from `odoh.rs`. -/
def QUERY_PATH : String := "/dns-query"

/-- The ODoH media type constant `ODOH_HTTP_HEADER` re-exported by
    `odoh_rs::protocol` and used for the content-type and accept headers. -/
def ODOH_HTTP_HEADER : String := "application/oblivious-dns-message"

/-- Header name `reqwest::header::CONTENT_TYPE`. -/
def CONTENT_TYPE : String := "content-type"

/-- Header name `reqwest::header::ACCEPT`. -/
def ACCEPT : String := "accept"

/-- Header name `reqwest::header::CACHE_CONTROL`. -/
def CACHE_CONTROL : String := "cache-control"

/-- Model of `odoh_rs::protocol::ObliviousDoHConfigContents`: one published
    ODoH configuration (KEM/KDF/AEAD algorithm identifiers and the target
    public key bytes). -/
structure ObliviousDoHConfigContents where
  kem_id : Nat
  kdf_id : Nat
  aead_id : Nat
  public_key : List Nat
deriving DecidableEq

/-- Modelled from the spec: the client-supported algorithm suites.  The spec
    names DHKEM(X25519) / HKDF-SHA256 / AES-128-GCM as the client-supported
    triple (IANA identifiers 0x20, 0x01, 0x01). -/
def supported_suites : List (Nat × Nat × Nat) := [(32, 1, 1)]

/-- A config is supported when its algorithm triple matches a
    client-supported suite. -/
def ObliviousDoHConfigContents.is_supported (c : ObliviousDoHConfigContents) : Bool :=
  supported_suites.contains (c.kem_id, c.kdf_id, c.aead_id)

/-- The errors the session can surface.  `odoh.rs` propagates collaborator
    errors through `anyhow::Result`, which boxes each underlying typed error
    without merging them; the constructors below record the originating
    stage, mirroring the distinct underlying Rust error types. -/
inductive Error where
  | urlParseError
  | discoveryError (cause : String)
  | unsupportedConfigError
  | encodingError (cause : String)
  | cryptoError (cause : String)
  | noHostError
  | statusError (code : Nat)
  | connectionError (cause : String)
  | decryptionError (cause : String)
  | malformedResponseError (cause : String)
deriving DecidableEq

/-- Modelled from the spec: `odoh_rs::protocol::get_supported_config`
    (external crate, spec section 4.1 `select`): return the first config in
    publication order whose algorithm triple matches a client-supported
    suite, or fail with `UnsupportedConfigError` when none does.  The
    discovery payload is modelled already parsed into its config records. -/
def get_supported_config (configs : List ObliviousDoHConfigContents) :
    Except Error ObliviousDoHConfigContents :=
  match configs.find? (fun c => c.is_supported) with
  | some c => .ok c
  | none => .error .unsupportedConfigError

/-- Model of `odoh_rs::protocol::ObliviousDoHQueryBody`: the serialized DNS
    query message plus padding bytes. -/
structure ObliviousDoHQueryBody where
  dns_msg : List Nat
  padding : List Nat
deriving DecidableEq

/-- Modelled from the spec: `ObliviousDoHQueryBody::new(dns_msg, padding_len)`
    (external odoh_rs crate) wraps a serialized DNS message as a QueryBody
    with the given padding length (zero bytes), defaulting to no padding. -/
def ObliviousDoHQueryBody.new (dns_msg : List Nat) (padding_len : Option Nat) :
    ObliviousDoHQueryBody :=
  { dns_msg := dns_msg, padding := List.replicate (padding_len.getD 0) 0 }

/-- Model of `odoh_rs::protocol::ObliviousDoHResponseBody`: the decrypted
    response plaintext, exposing the serialized DNS answer message. -/
structure ObliviousDoHResponseBody where
  dns_msg : List Nat
  padding : List Nat
deriving DecidableEq

/-- Model of a parsed `trust_dns_proto::op::Message` (opaque for the session
    logic: only produced and returned). -/
structure Message where
  raw : List Nat
deriving DecidableEq

/-- The HTTP request assembled by `send_request` before it is sent: the
    destination URL, the header list, the URL query parameters and the raw
    body bytes. -/
structure BuiltRequest where
  url : Url
  headers : List (String × String)
  query : List (String × String)
  body : List Nat
deriving DecidableEq

/-- A transport response: the HTTP status code, and the outcome of reading
    the body (`resp.bytes().await` in the source is a second fallible
    step after the status is known). -/
structure HttpResp where
  status : Nat
  body : Except String (List Nat)

/-- Network events performed by the session: the config discovery fetch
    (HTTP GET inside `dns_utils::fetch_odoh_config`) and the POST of an
    encrypted query to the query endpoint. -/
inductive Event where
  | fetchConfig (target : String)
  | postQuery (req : BuiltRequest)
deriving DecidableEq

/-- Recognizer for config-discovery events. -/
def Event.isFetch : Event → Bool
  | .fetchConfig _ => true
  | .postQuery _ => false

/-- Recognizer for query-POST events. -/
def Event.isPost : Event → Bool
  | .fetchConfig _ => false
  | .postQuery _ => true

/-- The collaborator environment: URL parsing (`url` crate), config
    discovery (`dns_utils::fetch_odoh_config`, a repository module absent
    from `src/`, modelled from the spec as a fallible fetch returning the
    parsed config records), DNS query construction and answer parsing
    (`dns_utils`, likewise modelled from the spec), the odoh_rs crypto
    (`create_query_msg`, `parse_received_response`) and the HTTP transport
    (`reqwest`). -/
structure Env where
  parse_url : String → Option Url
  fetch_odoh_config : String → Except String (List ObliviousDoHConfigContents)
  create_dns_query : String → String → Except String (List Nat)
  create_query_msg : ObliviousDoHConfigContents → ObliviousDoHQueryBody →
    Except String (List Nat × List Nat)
  transport : BuiltRequest → Except String HttpResp
  parse_received_response : List Nat → List Nat → ObliviousDoHQueryBody →
    Except String ObliviousDoHResponseBody
  parse_dns_answer : List Nat → Except String Message

/-- Model of `ODOHSession` (`odoh.rs` lines 17-23).  The `reqwest::Client`
    field is opaque connection state and lives in `Env.transport`. -/
structure ODOHSession where
  target : Url
  proxy : Option Url
  target_config : ObliviousDoHConfigContents
deriving DecidableEq

/-- Model of `ODOHRequest` (`odoh.rs` lines 25-29). -/
structure ODOHRequest where
  query : ObliviousDoHQueryBody
  client_secret : List Nat
  encrypted_query : List Nat
deriving DecidableEq

/-- Model of `ODOHResponse` (`odoh.rs` lines 31-34). -/
structure ODOHResponse where
  request : ODOHRequest
  encrypted_response : List Nat
deriving DecidableEq

/-- Model of `ODOHSession::new` (`odoh.rs` lines 38-54): parse the target
    URL and force its path to `QUERY_PATH`; parse the proxy string with
    `Url::parse(p).ok()` (a parse failure silently yields `None`); fetch the
    target's ODoH config set (one network GET, recorded in the trace even
    when later steps fail) and select a supported config.  Returns the
    result together with the trace of network events performed. -/
def ODOHSession.new (env : Env) (target : String) (proxy : Option String) :
    Except Error ODOHSession × List Event :=
  match env.parse_url target with
  | none => (.error .urlParseError, [])
  | some tu =>
    let target_url := tu.set_path QUERY_PATH
    let proxy_url : Option Url :=
      match proxy with
      | some p => env.parse_url p
      | none => none
    match env.fetch_odoh_config target with
    | .error e => (.error (.discoveryError e), [.fetchConfig target])
    | .ok odoh_config =>
      match get_supported_config odoh_config with
      | .error e => (.error e, [.fetchConfig target])
      | .ok target_config =>
        (.ok { target := target_url, proxy := proxy_url,
               target_config := target_config },
         [.fetchConfig target])

/-- Model of `ODOHSession::create_request` (`odoh.rs` lines 57-67): build
    the plain DNS query, wrap it as a QueryBody with padding length
    `Some(1)`, encrypt it under the cached target config, and keep the
    per-query client secret. -/
def ODOHSession.create_request (env : Env) (s : ODOHSession)
    (domain : String) (qtype : String) : Except Error ODOHRequest :=
  match env.create_dns_query domain qtype with
  | .error e => .error (.encodingError e)
  | .ok dns_msg =>
    let query := ObliviousDoHQueryBody.new dns_msg (some 1)
    match env.create_query_msg s.target_config query with
    | .error e => .error (.cryptoError e)
    | .ok (encrypted_query, client_secret) =>
      .ok { query := query, client_secret := client_secret,
            encrypted_query := encrypted_query }

/-- The request-assembly stage of `ODOHSession::send_request` (`odoh.rs`
    lines 77-95): set the three headers, compute the `targethost` /
    `targetpath` query parameters (the `host_str` lookup is performed, and
    can fail, before the proxy/direct branch), then address the POST at the
    proxy with those query parameters, or directly at the target with
    none. -/
def ODOHSession.build_request (s : ODOHSession) (request : ODOHRequest) :
    Except Error BuiltRequest :=
  let headers := [(CONTENT_TYPE, ODOH_HTTP_HEADER), (ACCEPT, ODOH_HTTP_HEADER),
                  (CACHE_CONTROL, "no-cache, no-store")]
  match s.target.host_str with
  | none => .error .noHostError
  | some h =>
    let query := [("targethost", h), ("targetpath", QUERY_PATH)]
    match s.proxy with
    | some p =>
      .ok { url := p, headers := headers, query := query,
            body := request.encrypted_query }
    | none =>
      .ok { url := s.target, headers := headers, query := [],
            body := request.encrypted_query }

/-- Model of `ODOHSession::send_request` (`odoh.rs` lines 76-111): assemble
    the request, send it (one POST event; `send.await?` surfaces connection
    failures), reject any status other than 200 with an error carrying the
    status code, then read the body (`resp.bytes().await?`, a second
    fallible step). -/
def ODOHSession.send_request (env : Env) (s : ODOHSession)
    (request : ODOHRequest) : Except Error ODOHResponse × List Event :=
  match ODOHSession.build_request s request with
  | .error e => (.error e, [])
  | .ok built =>
    match env.transport built with
    | .error cause => (.error (.connectionError cause), [.postQuery built])
    | .ok resp =>
      if resp.status ≠ 200 then
        (.error (.statusError resp.status), [.postQuery built])
      else
        match resp.body with
        | .error cause => (.error (.connectionError cause), [.postQuery built])
        | .ok bytes =>
          (.ok { request := request, encrypted_response := bytes },
           [.postQuery built])

/-- Model of `ODOHSession::parse_response` (`odoh.rs` lines 114-121): open
    the sealed response with the paired request's client secret and original
    query body, then parse the plaintext as a DNS message
    (`dns_utils::parse_dns_answer`). -/
def ODOHSession.parse_response (env : Env) (_s : ODOHSession)
    (resp : ODOHResponse) : Except Error Message :=
  match env.parse_received_response resp.request.client_secret
      resp.encrypted_response resp.request.query with
  | .error e => .error (.decryptionError e)
  | .ok response_body =>
    match env.parse_dns_answer response_body.dns_msg with
    | .error e => .error (.malformedResponseError e)
    | .ok m => .ok m

/-- Model of `ODOHSession::resolve` (`odoh.rs` lines 123-128): the strict
    `create_request` / `send_request` / `parse_response` pipeline, each
    error propagated by `?`. -/
def ODOHSession.resolve (env : Env) (s : ODOHSession)
    (domain : String) (qtype : String) : Except Error Message × List Event :=
  match ODOHSession.create_request env s domain qtype with
  | .error e => (.error e, [])
  | .ok request =>
    match ODOHSession.send_request env s request with
    | (.error e, tr) => (.error e, tr)
    | (.ok response, tr) =>
      match ODOHSession.parse_response env s response with
      | .error e => (.error e, tr)
      | .ok m => (.ok m, tr)

/-- A sequence of `resolve` calls on one session.  `resolve` takes `&self`
    in the source, so every call receives the same session value; the
    returned session is the embedding of that immutable borrow.  Results and
    network traces of the calls are concatenated in order. -/
def ODOHSession.resolve_all (env : Env) (s : ODOHSession) :
    List (String × String) → ODOHSession × List (Except Error Message) × List Event
  | [] => (s, [], [])
  | (d, t) :: rest =>
    let step := ODOHSession.resolve env s d t
    let tail := ODOHSession.resolve_all env s rest
    (tail.1, step.1 :: tail.2.1, step.2 ++ tail.2.2)

/-! Concrete sample collaborators and sessions, used by the witness and
    counterexample theorems below. -/

/-- A sample target URL whose path is already `/dns-query`. -/
def url_target : Url :=
  { host := some "odoh.example.net", path := "/dns-query", meta := "https" }

/-- A sample proxy URL. -/
def url_proxy : Url :=
  { host := some "proxy.example.org", path := "/proxy", meta := "https" }

/-- A client-supported sample config (X25519 / HKDF-SHA256 / AES-128-GCM). -/
def cfg_ok : ObliviousDoHConfigContents :=
  { kem_id := 32, kdf_id := 1, aead_id := 1, public_key := [7] }

/-- A sample config with an unsupported algorithm triple. -/
def cfg_bad : ObliviousDoHConfigContents :=
  { kem_id := 99, kdf_id := 99, aead_id := 99, public_key := [] }

/-- The request `create_request` produces under `env_base`. -/
def sample_req : ODOHRequest :=
  { query := ObliviousDoHQueryBody.new [1, 2] (some 1),
    client_secret := [9], encrypted_query := [3, 4] }

/-- A sample session without a proxy. -/
def s_direct : ODOHSession :=
  { target := url_target, proxy := none, target_config := cfg_ok }

/-- A sample session with a proxy. -/
def s_proxy : ODOHSession :=
  { target := url_target, proxy := some url_proxy, target_config := cfg_ok }

/-- A URL parser that rejects exactly the string "not a url". -/
def parse_url_flaky (t : String) : Option Url :=
  if t = "not a url" then none
  else some { host := some "odoh.example.net", path := "/", meta := t }

/-- A sample environment in which every stage succeeds. -/
def env_base : Env :=
  { parse_url := fun t => some { host := some "odoh.example.net", path := "/", meta := t },
    fetch_odoh_config := fun _ => .ok [cfg_ok],
    create_dns_query := fun _ _ => .ok [1, 2],
    create_query_msg := fun _ _ => .ok ([3, 4], [9]),
    transport := fun _ => .ok { status := 200, body := .ok [5, 6] },
    parse_received_response := fun _ _ _ => .ok { dns_msg := [7, 8], padding := [] },
    parse_dns_answer := fun _ => .ok { raw := [7, 8] } }

/-- The session `ODOHSession.new env_base "https://odoh.example.net" _`
    constructs when the proxy argument is absent or unparsable. -/
def s_new : ODOHSession :=
  { target := { host := some "odoh.example.net", path := "/dns-query",
                meta := "https://odoh.example.net" },
    proxy := none, target_config := cfg_ok }

/-- Environment whose URL parser rejects the string "not a url". -/
def env_badproxy : Env :=
  { env_base with parse_url := parse_url_flaky }

/-- The header list `send_request` attaches to every request. -/
def request_headers : List (String × String) :=
  [(CONTENT_TYPE, ODOH_HTTP_HEADER), (ACCEPT, ODOH_HTTP_HEADER),
   (CACHE_CONTROL, "no-cache, no-store")]

/-- The request `build_request` assembles for `s_direct` and `sample_req`. -/
def built_direct : BuiltRequest :=
  { url := url_target, headers := request_headers, query := [], body := [3, 4] }

/-- The request `build_request` assembles for `s_proxy` and `sample_req`. -/
def built_proxied : BuiltRequest :=
  { url := url_proxy, headers := request_headers,
    query := [("targethost", "odoh.example.net"), ("targetpath", "/dns-query")],
    body := [3, 4] }

/-- Inversion helper: a successful `ODOHSession.new` pins down each stage's
    outcome, the constructed session and the event trace. -/
theorem new_ok_inversion (env : Env) (target : String) (proxy : Option String)
    (s : ODOHSession) (tr : List Event)
    (h : ODOHSession.new env target proxy = (.ok s, tr)) :
    ∃ tu configs, env.parse_url target = some tu ∧
      env.fetch_odoh_config target = .ok configs ∧
      get_supported_config configs = .ok s.target_config ∧
      s.target = tu.set_path QUERY_PATH ∧
      tr = [Event.fetchConfig target] := by
  unfold ODOHSession.new at h
  cases hpu : env.parse_url target with
  | none => simp only [hpu] at h; simp at h
  | some tu =>
    simp only [hpu] at h
    cases hfc : env.fetch_odoh_config target with
    | error e => simp only [hfc] at h; simp at h
    | ok configs =>
      simp only [hfc] at h
      cases hgc : get_supported_config configs with
      | error e => simp only [hgc] at h; simp at h
      | ok cfg =>
        simp only [hgc, Prod.mk.injEq, Except.ok.injEq] at h
        obtain ⟨h1, h2⟩ := h
        subst h1
        exact ⟨tu, configs, rfl, rfl, hgc, rfl, h2.symm⟩

/-- Helper: the network trace of `send_request` is empty (request assembly
    failed) or exactly one POST of the assembled request. -/
theorem send_request_trace (env : Env) (s : ODOHSession) (req : ODOHRequest) :
    (ODOHSession.send_request env s req).2 = [] ∨
    ∃ b, ODOHSession.build_request s req = .ok b ∧
      (ODOHSession.send_request env s req).2 = [Event.postQuery b] := by
  cases hbr : ODOHSession.build_request s req with
  | error e =>
    left
    simp [ODOHSession.send_request, hbr]
  | ok built =>
    refine Or.inr ⟨built, rfl, ?_⟩
    cases htr : env.transport built with
    | error c => simp [ODOHSession.send_request, hbr, htr]
    | ok resp =>
      by_cases hs : resp.status = 200
      · cases hb2 : resp.body <;>
          simp [ODOHSession.send_request, hbr, htr, hs, hb2]
      · simp [ODOHSession.send_request, hbr, htr, hs]

/-- C1: for every session whose target URL has a host, `send_request`
addresses the POST at the proxy URL with exactly the query parameters
`targethost=<target host>` and `targetpath=/dns-query` when a proxy is
configured, and directly at the target URL with no such query parameters
when no proxy is configured; `new` pins every constructed session's target
path to `/dns-query`; and every POST event `send_request` emits carries
exactly the request assembled by this addressing rule. -/
theorem c1_proxy_addressing (env : Env) (s : ODOHSession) (req : ODOHRequest)
    (hst : String) (hh : s.target.host = some hst) :
    (∀ p, s.proxy = some p →
      ODOHSession.build_request s req =
        .ok { url := p, headers := request_headers,
              query := [("targethost", hst), ("targetpath", QUERY_PATH)],
              body := req.encrypted_query })
    ∧ (s.proxy = none →
      ODOHSession.build_request s req =
        .ok { url := s.target, headers := request_headers, query := [],
              body := req.encrypted_query })
    ∧ (∀ tgt prx s0 tr, ODOHSession.new env tgt prx = (.ok s0, tr) →
        s0.target.path = QUERY_PATH)
    ∧ (∀ b, Event.postQuery b ∈ (ODOHSession.send_request env s req).2 →
        ODOHSession.build_request s req = .ok b) := by
  refine ⟨?_, ?_, ?_, ?_⟩
  · intro p hp
    simp [ODOHSession.build_request, Url.host_str, hh, hp, request_headers]
  · intro hp
    simp [ODOHSession.build_request, Url.host_str, hh, hp, request_headers]
  · intro tgt prx s0 tr hnew
    obtain ⟨tu, configs, -, -, -, htgt, -⟩ :=
      new_ok_inversion env tgt prx s0 tr hnew
    rw [htgt]
    rfl
  · intro b hb
    rcases send_request_trace env s req with h0 | ⟨b0, hb0, h1⟩
    · rw [h0] at hb
      simp at hb
    · rw [h1] at hb
      simp only [List.mem_singleton, Event.postQuery.injEq] at hb
      rw [hb]
      exact hb0

/-- C1 witness: concrete instantiation in proxied mode. -/
theorem c1_proxy_addressing_witness :
    s_proxy.target.host = some "odoh.example.net" ∧
    ODOHSession.build_request s_proxy sample_req = .ok built_proxied :=
  ⟨rfl, (c1_proxy_addressing env_base s_proxy sample_req
    "odoh.example.net" rfl).1 url_proxy rfl⟩

/-- C2: a proxy string the URL parser rejects never makes `new` fail: the
session is constructed with `proxy = none` (the other stages succeeding),
and request assembly on that session addresses the POST directly at the
target with no proxy query parameters. -/
theorem c2_bad_proxy_ignored (env : Env) (target proxyStr : String)
    (tu : Url) (configs : List ObliviousDoHConfigContents)
    (cfg : ObliviousDoHConfigContents)
    (h1 : env.parse_url target = some tu)
    (h2 : env.parse_url proxyStr = none)
    (h3 : env.fetch_odoh_config target = .ok configs)
    (h4 : get_supported_config configs = .ok cfg) :
    ODOHSession.new env target (some proxyStr) =
      (.ok { target := tu.set_path QUERY_PATH, proxy := none,
             target_config := cfg },
       [Event.fetchConfig target])
    ∧ (∀ req hst, (tu.set_path QUERY_PATH).host = some hst →
        ODOHSession.build_request
          { target := tu.set_path QUERY_PATH, proxy := none,
            target_config := cfg } req =
          .ok { url := tu.set_path QUERY_PATH, headers := request_headers,
                query := [], body := req.encrypted_query }) := by
  constructor
  · simp [ODOHSession.new, h1, h2, h3, h4]
  · intro req hst hh
    simp [ODOHSession.build_request, Url.host_str, hh, request_headers]

/-- C2 witness: concrete unparsable proxy string. -/
theorem c2_bad_proxy_ignored_witness :
    env_badproxy.parse_url "not a url" = none ∧
    ODOHSession.new env_badproxy "https://odoh.example.net" (some "not a url") =
      (.ok s_new, [Event.fetchConfig "https://odoh.example.net"]) := by
  refine ⟨by decide, ?_⟩
  have h := (c2_bad_proxy_ignored env_badproxy "https://odoh.example.net"
    "not a url"
    { host := some "odoh.example.net", path := "/",
      meta := "https://odoh.example.net" }
    [cfg_ok] cfg_ok (by decide) (by decide) rfl rfl).1
  exact h

/-- C7: every request assembled by `send_request`, proxied or direct,
carries the Content-Type and Accept headers set to the ODoH media type and
the Cache-Control header set to "no-cache, no-store". -/
theorem c7_required_headers (s : ODOHSession) (req : ODOHRequest)
    (b : BuiltRequest) (h : ODOHSession.build_request s req = .ok b) :
    b.headers = [(CONTENT_TYPE, ODOH_HTTP_HEADER), (ACCEPT, ODOH_HTTP_HEADER),
                 (CACHE_CONTROL, "no-cache, no-store")] := by
  cases hh : s.target.host_str with
  | none => simp [ODOHSession.build_request, hh] at h
  | some hs0 =>
    cases hp : s.proxy with
    | none =>
      simp only [ODOHSession.build_request, hh, hp, Except.ok.injEq] at h
      rw [← h]
    | some p =>
      simp only [ODOHSession.build_request, hh, hp, Except.ok.injEq] at h
      rw [← h]

/-- C7 witness: concrete direct-mode request. -/
theorem c7_required_headers_witness :
    ODOHSession.build_request s_direct sample_req = .ok built_direct ∧
    built_direct.headers =
      [(CONTENT_TYPE, ODOH_HTTP_HEADER), (ACCEPT, ODOH_HTTP_HEADER),
       (CACHE_CONTROL, "no-cache, no-store")] :=
  ⟨rfl, c7_required_headers s_direct sample_req built_direct rfl⟩

/-- A response paired with `sample_req`. -/
def sample_resp : ODOHResponse :=
  { request := sample_req, encrypted_response := [5, 6] }

/-- A transport response with status 200 whose body read fails. -/
def resp_body_fail : HttpResp :=
  { status := 200, body := .error "connection reset by peer" }

/-- A transport response with HTTP status 500 and an empty body. -/
def resp_500 : HttpResp :=
  { status := 500, body := .ok [] }

/-- Environment whose transport returns `resp_body_fail`. -/
def env_body_fail : Env :=
  { env_base with transport := fun _ => .ok resp_body_fail }

/-- Environment whose transport returns HTTP status 500. -/
def env_500 : Env :=
  { env_base with transport := fun _ => .ok resp_500 }

/-- Environment whose discovery returns only an unsupported config. -/
def env_nocfg : Env :=
  { env_base with fetch_odoh_config := fun _ => .ok [cfg_bad] }

/-- Environment whose DNS-query construction fails. -/
def env_encfail : Env :=
  { env_base with create_dns_query := fun _ _ => .error "invalid query type" }

/-- Environment whose response decryption fails AEAD authentication. -/
def env_tamper : Env :=
  { env_base with parse_received_response := fun _ _ _ => .error "aead authentication failure" }

/-- Environment whose decrypted plaintext fails to parse as a DNS message. -/
def env_badmsg : Env :=
  { env_base with parse_dns_answer := fun _ => .error "invalid dns message" }

/-- C3 counterexample: a transport exchange whose HTTP status is exactly 200
but whose body read fails leaves `send_request` with an error, refuting
"successful if and only if the status is exactly 200" at this input. -/
theorem c3_status_iff_counterexample :
    ODOHSession.build_request s_direct sample_req = .ok built_direct ∧
    env_body_fail.transport built_direct =
      .ok { status := 200, body := .error "connection reset by peer" } ∧
    (ODOHSession.send_request env_body_fail s_direct sample_req).1 =
      .error (.connectionError "connection reset by peer") :=
  ⟨rfl, rfl, rfl⟩

/-- C3 (amended): `send_request` succeeds exactly when the connection
succeeds, the status is 200, and the response body is read successfully; any
other status yields an error carrying that status code; a connection failure
— on the send or while reading the body — yields an error with the I/O
cause. -/
theorem c3_transport_errors (env : Env) (s : ODOHSession) (req : ODOHRequest) :
    ((∃ r tr, ODOHSession.send_request env s req = (.ok r, tr)) ↔
      (∃ b resp bytes, ODOHSession.build_request s req = .ok b ∧
        env.transport b = .ok resp ∧ resp.status = 200 ∧ resp.body = .ok bytes))
    ∧ (∀ b resp, ODOHSession.build_request s req = .ok b →
        env.transport b = .ok resp → resp.status ≠ 200 →
        (ODOHSession.send_request env s req).1 =
          .error (.statusError resp.status))
    ∧ (∀ b cause, ODOHSession.build_request s req = .ok b →
        env.transport b = .error cause →
        (ODOHSession.send_request env s req).1 =
          .error (.connectionError cause))
    ∧ (∀ b resp cause, ODOHSession.build_request s req = .ok b →
        env.transport b = .ok resp → resp.status = 200 →
        resp.body = .error cause →
        (ODOHSession.send_request env s req).1 =
          .error (.connectionError cause)) := by
  refine ⟨⟨?_, ?_⟩, ?_, ?_, ?_⟩
  · rintro ⟨r, tr, hr⟩
    cases hbr : ODOHSession.build_request s req with
    | error e => simp [ODOHSession.send_request, hbr] at hr
    | ok b =>
      cases htr : env.transport b with
      | error c => simp [ODOHSession.send_request, hbr, htr] at hr
      | ok resp =>
        by_cases hs200 : resp.status = 200
        · cases hb2 : resp.body with
          | error c =>
            simp [ODOHSession.send_request, hbr, htr, hs200, hb2] at hr
          | ok bytes => exact ⟨b, resp, bytes, rfl, htr, hs200, hb2⟩
        · simp [ODOHSession.send_request, hbr, htr, hs200] at hr
  · rintro ⟨b, resp, bytes, hbr, htr, hs200, hb2⟩
    exact ⟨{ request := req, encrypted_response := bytes },
      [Event.postQuery b],
      by simp [ODOHSession.send_request, hbr, htr, hs200, hb2]⟩
  · intro b resp hbr htr hs200
    simp [ODOHSession.send_request, hbr, htr, hs200]
  · intro b cause hbr htr
    simp [ODOHSession.send_request, hbr, htr]
  · intro b resp cause hbr htr hs200 hb2
    simp [ODOHSession.send_request, hbr, htr, hs200, hb2]

/-- C3 witness: a 500 status yields an error carrying the status code. -/
theorem c3_transport_errors_witness :
    ODOHSession.build_request s_direct sample_req = .ok built_direct ∧
    env_500.transport built_direct = .ok { status := 500, body := .ok [] } ∧
    (ODOHSession.send_request env_500 s_direct sample_req).1 =
      .error (.statusError 500) :=
  ⟨rfl, rfl,
    (c3_transport_errors env_500 s_direct sample_req).2.1 built_direct
      { status := 500, body := .ok [] } rfl rfl (by decide)⟩

/-- C4: `parse_response` surfaces an AEAD authentication failure of the
encrypted response as a decryption error, and a DNS-parse failure of the
successfully opened plaintext as a malformed-response error; the two error
forms are distinct. -/
theorem c4_decrypt_error_taxonomy (env : Env) (s : ODOHSession)
    (resp : ODOHResponse) :
    (∀ e, env.parse_received_response resp.request.client_secret
        resp.encrypted_response resp.request.query = .error e →
      ODOHSession.parse_response env s resp = .error (.decryptionError e))
    ∧ (∀ rb e, env.parse_received_response resp.request.client_secret
        resp.encrypted_response resp.request.query = .ok rb →
      env.parse_dns_answer rb.dns_msg = .error e →
      ODOHSession.parse_response env s resp =
        .error (.malformedResponseError e))
    ∧ (∀ e1 e2, Error.decryptionError e1 ≠ Error.malformedResponseError e2) := by
  refine ⟨?_, ?_, ?_⟩
  · intro e he
    simp [ODOHSession.parse_response, he]
  · intro rb e h1 h2
    simp [ODOHSession.parse_response, h1, h2]
  · intro e1 e2 hcontra
    exact Error.noConfusion hcontra

/-- C4 witness: concrete tampered response and concrete malformed
plaintext. -/
theorem c4_decrypt_error_taxonomy_witness :
    env_tamper.parse_received_response sample_req.client_secret [5, 6]
      sample_req.query = .error "aead authentication failure" ∧
    ODOHSession.parse_response env_tamper s_direct sample_resp =
      .error (.decryptionError "aead authentication failure") ∧
    ODOHSession.parse_response env_badmsg s_direct sample_resp =
      .error (.malformedResponseError "invalid dns message") :=
  ⟨rfl,
    (c4_decrypt_error_taxonomy env_tamper s_direct sample_resp).1 _ rfl,
    (c4_decrypt_error_taxonomy env_badmsg s_direct sample_resp).2.1
      { dns_msg := [7, 8], padding := [] } _ rfl rfl⟩

/-- C5: `resolve` runs create / send / parse strictly in sequence; the first
failing stage's error is returned as is, later stages never run (the result
after a transport failure is unchanged under any replacement of the
decryption and DNS-parsing collaborators), and a full success returns
exactly the parse stage's outcome — no retry, no partial result. -/
theorem c5_pipeline_sequencing (env : Env) (s : ODOHSession)
    (domain qtype : String) :
    (∀ e, ODOHSession.create_request env s domain qtype = .error e →
      ODOHSession.resolve env s domain qtype = (.error e, []))
    ∧ (∀ req e tr, ODOHSession.create_request env s domain qtype = .ok req →
        ODOHSession.send_request env s req = (.error e, tr) →
        ODOHSession.resolve env s domain qtype = (.error e, tr))
    ∧ (∀ req resp tr, ODOHSession.create_request env s domain qtype = .ok req →
        ODOHSession.send_request env s req = (.ok resp, tr) →
        ODOHSession.resolve env s domain qtype =
          (ODOHSession.parse_response env s resp, tr))
    ∧ (∀ f g req e tr, ODOHSession.create_request env s domain qtype = .ok req →
        ODOHSession.send_request env s req = (.error e, tr) →
        ODOHSession.resolve
          { env with parse_received_response := f, parse_dns_answer := g }
          s domain qtype = (.error e, tr)) := by
  refine ⟨?_, ?_, ?_, ?_⟩
  · intro e he
    simp [ODOHSession.resolve, he]
  · intro req e tr h1 h2
    simp [ODOHSession.resolve, h1, h2]
  · intro req resp tr h1 h2
    cases hp : ODOHSession.parse_response env s resp with
    | error e2 => simp [ODOHSession.resolve, h1, h2, hp]
    | ok m => simp [ODOHSession.resolve, h1, h2, hp]
  · intro f g req e tr h1 h2
    have h1b : ODOHSession.create_request
        { env with parse_received_response := f, parse_dns_answer := g }
        s domain qtype = .ok req := h1
    have h2b : ODOHSession.send_request
        { env with parse_received_response := f, parse_dns_answer := g }
        s req = (.error e, tr) := h2
    simp [ODOHSession.resolve, h1b, h2b]

/-- C5 witness: a failing create stage is terminal with an empty network
trace. -/
theorem c5_pipeline_sequencing_witness :
    ODOHSession.create_request env_encfail s_direct "example.com" "A" =
      .error (.encodingError "invalid query type") ∧
    ODOHSession.resolve env_encfail s_direct "example.com" "A" =
      (.error (.encodingError "invalid query type"), []) :=
  ⟨rfl,
    (c5_pipeline_sequencing env_encfail s_direct "example.com" "A").1 _ rfl⟩

/-- Helper: a successful `send_request` hands the original request through
    unchanged into the response. -/
theorem send_request_ok_request (env : Env) (s : ODOHSession)
    (req : ODOHRequest) (resp : ODOHResponse) (tr : List Event)
    (h : ODOHSession.send_request env s req = (.ok resp, tr)) :
    resp.request = req := by
  cases hbr : ODOHSession.build_request s req with
  | error e => simp [ODOHSession.send_request, hbr] at h
  | ok b =>
    cases htr : env.transport b with
    | error c => simp [ODOHSession.send_request, hbr, htr] at h
    | ok r0 =>
      by_cases hs200 : r0.status = 200
      · cases hb2 : r0.body with
        | error c => simp [ODOHSession.send_request, hbr, htr, hs200, hb2] at h
        | ok bytes =>
          simp [ODOHSession.send_request, hbr, htr, hs200, hb2] at h
          obtain ⟨h1, h2⟩ := h
          subst h1
          rfl
      · simp [ODOHSession.send_request, hbr, htr, hs200] at h

/-- C9: `create_request` wraps the serialized DNS query as a QueryBody with
padding length fixed to the constant 1, and that query body — padding
included — is stored in the request and carried unchanged by `send_request`
into the response used for decryption. -/
theorem c9_padding_constant (env : Env) (s : ODOHSession)
    (domain qtype : String) (req : ODOHRequest)
    (h : ODOHSession.create_request env s domain qtype = .ok req) :
    req.query.padding.length = 1
    ∧ (∃ msg, env.create_dns_query domain qtype = .ok msg ∧
        req.query = ObliviousDoHQueryBody.new msg (some 1))
    ∧ (∀ resp tr, ODOHSession.send_request env s req = (.ok resp, tr) →
        resp.request.query = req.query) := by
  cases hdq : env.create_dns_query domain qtype with
  | error e => simp [ODOHSession.create_request, hdq] at h
  | ok msg =>
    cases hcq : env.create_query_msg s.target_config
        (ObliviousDoHQueryBody.new msg (some 1)) with
    | error e => simp [ODOHSession.create_request, hdq, hcq] at h
    | ok pair =>
      simp only [ODOHSession.create_request, hdq, hcq,
        Except.ok.injEq] at h
      refine ⟨?_, ⟨msg, rfl, ?_⟩, ?_⟩
      · rw [← h]
        rfl
      · rw [← h]
      · intro resp tr hsr
        rw [send_request_ok_request env s req resp tr hsr]

/-- C9 witness: concrete request with padding length 1. -/
theorem c9_padding_constant_witness :
    ODOHSession.create_request env_base s_direct "example.com" "A" =
      .ok sample_req ∧
    sample_req.query.padding.length = 1 :=
  ⟨rfl,
    (c9_padding_constant env_base s_direct "example.com" "A" sample_req
      rfl).1⟩

/-- Helper: the network trace of one `resolve` call contains no
    config-discovery event. -/
theorem resolve_trace_no_fetch (env : Env) (s : ODOHSession) (d t : String) :
    ((ODOHSession.resolve env s d t).2).countP Event.isFetch = 0 := by
  cases hc : ODOHSession.create_request env s d t with
  | error e => simp [ODOHSession.resolve, hc]
  | ok req =>
    have h0 := send_request_trace env s req
    rcases hsr : ODOHSession.send_request env s req with ⟨r, tr⟩
    simp only [hsr] at h0
    have htr : tr.countP Event.isFetch = 0 := by
      rcases h0 with h1 | ⟨b, -, h1⟩ <;> subst h1 <;>
        simp [List.countP_cons, Event.isFetch]
    cases r with
    | error e => simp [ODOHSession.resolve, hc, hsr, htr]
    | ok resp =>
      cases hp : ODOHSession.parse_response env s resp with
      | error e2 => simp [ODOHSession.resolve, hc, hsr, hp, htr]
      | ok m => simp [ODOHSession.resolve, hc, hsr, hp, htr]

/-- C6: config discovery and selection happen exactly once, during `new`:
the construction trace holds exactly one discovery event and the cached
`target_config` is exactly the selection made from the fetched set; every
sequence of `resolve` calls on the session performs no further discovery,
and — `resolve` taking the session by immutable borrow — hands the session
fields through unchanged. -/
theorem c6_config_discovery_once (env : Env) (target : String)
    (proxy : Option String) (s : ODOHSession) (tr : List Event)
    (h : ODOHSession.new env target proxy = (.ok s, tr)) :
    tr.countP Event.isFetch = 1
    ∧ (∃ configs, env.fetch_odoh_config target = .ok configs ∧
        get_supported_config configs = .ok s.target_config)
    ∧ (∀ qs, ((ODOHSession.resolve_all env s qs).2.2).countP Event.isFetch = 0)
    ∧ (∀ qs, (ODOHSession.resolve_all env s qs).1 = s) := by
  obtain ⟨tu, configs, hpu, hfc, hgc, htgt, htr⟩ :=
    new_ok_inversion env target proxy s tr h
  subst htr
  refine ⟨rfl, ⟨configs, hfc, hgc⟩, ?_, ?_⟩
  · intro qs
    induction qs with
    | nil => rfl
    | cons q rest ih =>
      rcases q with ⟨d, t⟩
      simp [ODOHSession.resolve_all, List.countP_append, ih,
        resolve_trace_no_fetch]
  · intro qs
    induction qs with
    | nil => rfl
    | cons q rest ih =>
      rcases q with ⟨d, t⟩
      simp [ODOHSession.resolve_all, ih]

/-- C6 witness: concrete successful construction with a one-fetch trace. -/
theorem c6_config_discovery_once_witness :
    ODOHSession.new env_base "https://odoh.example.net" none =
      (.ok s_new, [Event.fetchConfig "https://odoh.example.net"]) ∧
    ([Event.fetchConfig "https://odoh.example.net"].countP Event.isFetch = 1) :=
  ⟨rfl,
    (c6_config_discovery_once env_base "https://odoh.example.net" none s_new
      [Event.fetchConfig "https://odoh.example.net"] rfl).1⟩

/-- C8: when discovery returns a config set containing no client-supported
algorithm triple, `new` fails with the unsupported-config error and its
network trace contains no query POST: no query is ever sent. -/
theorem c8_unsupported_config_no_query (env : Env) (target : String)
    (proxy : Option String) (tu : Url)
    (configs : List ObliviousDoHConfigContents)
    (h1 : env.parse_url target = some tu)
    (h2 : env.fetch_odoh_config target = .ok configs)
    (h3 : ∀ c ∈ configs, c.is_supported = false) :
    ODOHSession.new env target proxy =
      (.error .unsupportedConfigError, [Event.fetchConfig target])
    ∧ ((ODOHSession.new env target proxy).2).countP Event.isPost = 0 := by
  have hfind : configs.find? (fun c => c.is_supported) = none := by
    rw [List.find?_eq_none]
    intro c hc
    simp [h3 c hc]
  have hsel : get_supported_config configs = .error .unsupportedConfigError := by
    simp [get_supported_config, hfind]
  constructor
  · simp [ODOHSession.new, h1, h2, hsel]
  · simp [ODOHSession.new, h1, h2, hsel, List.countP_cons, Event.isPost]

/-- C8 witness: a discovery set holding only an unsupported triple. -/
theorem c8_unsupported_config_no_query_witness :
    env_nocfg.fetch_odoh_config "https://odoh.example.net" = .ok [cfg_bad] ∧
    cfg_bad.is_supported = false ∧
    ODOHSession.new env_nocfg "https://odoh.example.net" none =
      (.error .unsupportedConfigError,
       [Event.fetchConfig "https://odoh.example.net"]) :=
  ⟨rfl, by decide,
    (c8_unsupported_config_no_query env_nocfg "https://odoh.example.net" none
      { host := some "odoh.example.net", path := "/",
        meta := "https://odoh.example.net" }
      [cfg_bad] rfl rfl (by decide)).1⟩

end ODoH
